import Mathlib

/-!
Verification of ddl-indexarr against its specification.

This file shallowly embeds the link-resolution and download-reconciliation
engine of the repository (app/api/newznab.py, app/services/darkiworld.py,
app/services/downloads.py, app/services/jdownloader.py, app/models) and
proves or refutes the frozen behavioural claims about it.

Modelling conventions:
  * Python strings are Lean `String`s; `s.upper()` / `s.lower()` are
    character-wise ASCII case maps (all strings the code compares are
    ASCII); `needle in hay` is `pyIn`.
  * Python `float` sizes are modelled exactly as scaled integers
    (decimal mantissa and scale); at every value this data carries the
    binary float computation and the exact decimal one truncate to the
    same integer, so `int(x * 1024**3)` is truncated integer division.
  * `async` calls are suspension points whose network results are passed
    in as explicit arguments (oracles); exceptions caught by the code's
    `try/except` blocks are modelled by `Option` results.
-/

namespace DDL

/-- ASCII uppercase of a string, modelling Python `str.upper()` on the
ASCII data this program compares. -/
def pyUpper (s : String) : String := String.mk (s.toList.map Char.toUpper)

/-- ASCII lowercase of a string, modelling Python `str.lower()`. -/
def pyLower (s : String) : String := String.mk (s.toList.map Char.toLower)

/-- Boolean list-prefix test used by the substring test below. -/
def isPrefixList : List Char → List Char → Bool
  | [], _ => true
  | _ :: _, [] => false
  | a :: as, b :: bs => a == b && isPrefixList as bs

/-- Does `needle` occur as a contiguous sublist of the second argument? -/
def pyInAux (needle : List Char) : List Char → Bool
  | [] => needle.isEmpty
  | c :: rest => isPrefixList needle (c :: rest) || pyInAux needle rest

/-- Python's `needle in hay` substring test. -/
def pyIn (needle hay : String) : Bool := pyInAux needle.toList hay.toList

/-- `app/models/indexer.py` `MediaType` (movie | tv | music). -/
inductive MediaType where
  | movie
  | tv
  | music
deriving DecidableEq, Repr

/-- `QUALITY_MAPPING` table of `app/api/newznab.py`, in source order. -/
def QUALITY_MAPPING : List (String × String) :=
  [ ("ULTRA HD (x265)", "Bluray-2160p"),
    ("ULTRA HD", "Bluray-2160p"),
    ("UHD (x265)", "Bluray-2160p"),
    ("UHD", "Bluray-2160p"),
    ("Ultra HDLight (x265)", "WEBDL-2160p"),
    ("Ultra HDLight", "WEBDL-2160p"),
    ("REMUX UHD", "Bluray-2160p Remux"),
    ("REMUX 4K", "Bluray-2160p Remux"),
    ("REMUX BLURAY 2160p", "Bluray-2160p Remux"),
    ("4K", "WEBDL-2160p"),
    ("2160p", "WEBDL-2160p"),
    ("REMUX BLURAY", "Bluray-1080p Remux"),
    ("REMUX", "Bluray-1080p Remux"),
    ("REMUX 1080p", "Bluray-1080p Remux"),
    ("Bluray 1080p", "Bluray-1080p"),
    ("Bluray", "Bluray-1080p"),
    ("BDRip 1080p", "Bluray-1080p"),
    ("BRRip 1080p", "Bluray-1080p"),
    ("HDLight 1080p (x265)", "WEBDL-1080p"),
    ("HDLight 1080p", "WEBDL-1080p"),
    ("WEB 1080p", "WEBDL-1080p"),
    ("WEB-DL 1080p", "WEBDL-1080p"),
    ("WEBDL 1080p", "WEBDL-1080p"),
    ("WEBRip 1080p", "WEBRip-1080p"),
    ("1080p", "WEBDL-1080p"),
    ("Bluray 720p", "Bluray-720p"),
    ("HDLight 720p (x265)", "WEBDL-720p"),
    ("HDLight 720p", "WEBDL-720p"),
    ("WEB-DL 720p", "WEBDL-720p"),
    ("WEBRip 720p", "WEBRip-720p"),
    ("720p", "WEBDL-720p"),
    ("DVDRIP", "DVD"),
    ("DVDRip", "DVD"),
    ("DVD", "DVD"),
    ("HDTV 1080p", "HDTV-1080p"),
    ("HDTV 720p", "HDTV-720p"),
    ("HDTV", "HDTV-1080p"),
    ("Blu-Ray 3D", "Bluray-1080p"),
    ("REMUX 3D", "Bluray-1080p Remux"),
    ("ISO", "BR-DISK"),
    ("Autre", "WEBDL-1080p") ]

/-- `normalize_quality` of `app/api/newznab.py` (lines 344-389): exact
table lookup first, then the heuristic resolution/type fallback. -/
def normalize_quality (raw_quality : String) : String :=
  if raw_quality = "" || raw_quality = "Unknown" then "WEBDL-1080p"
  else
    match QUALITY_MAPPING.lookup raw_quality with
    | some v => v
    | none =>
      let ql := pyLower raw_quality
      let resolution :=
        if pyIn "2160" ql || pyIn "4k" ql || pyIn "uhd" ql || pyIn "ultra hd" ql then "2160p"
        else if pyIn "1080" ql then "1080p"
        else if pyIn "720" ql then "720p"
        else if pyIn "480" ql || pyIn "sd" ql then "480p"
        else "1080p"
      if pyIn "remux" ql then "Remux-" ++ resolution
      else if pyIn "bluray" ql || pyIn "bdrip" ql || pyIn "brrip" ql then "Bluray-" ++ resolution
      else if pyIn "webrip" ql then "WEBRip-" ++ resolution
      else if pyIn "hdlight" ql || pyIn "web-dl" ql || pyIn "webdl" ql || pyIn "web " ql then "WEBDL-" ++ resolution
      else if pyIn "hdtv" ql then "HDTV-" ++ resolution
      else if pyIn "dvd" ql then "DVD"
      else "WEBDL-" ++ resolution

/-- Language table of `normalize_language` in `app/api/newznab.py`. -/
def LANG_MAP : List (String × String) :=
  [ ("French", "FRENCH"),
    ("TrueFrench", "TRUEFRENCH"),
    ("VFF", "VFF"),
    ("VFQ", "VFQ"),
    ("VFI", "VFI"),
    ("VF2", "VF2"),
    ("English", "ENGLISH"),
    ("German", "GERMAN"),
    ("Spanish", "SPANISH"),
    ("Italian", "ITALIAN"),
    ("Portuguese", "PORTUGUESE"),
    ("Russian", "RUSSIAN"),
    ("Japanese", "JAPANESE"),
    ("Korean", "KOREAN"),
    ("Chinese", "CHINESE"),
    ("Arabic", "ARABIC"),
    ("Hindi", "HINDI"),
    ("French (Canada)", "VFQ"),
    ("MULTI", "MULTI"),
    ("MULTi", "MULTI") ]

/-- `normalize_language`: table lookup, else uppercase with spaces removed. -/
def normalize_language (lang : String) : String :=
  match LANG_MAP.lookup lang with
  | some v => v
  | none => String.mk ((pyUpper lang).toList.filter (fun c => !(c == ' ')))

/-- Two-digit zero padding, modelling Python `f"{n:02d}"`. -/
def pad2 (n : Nat) : String := if n < 10 then "0" ++ toString n else toString n

/-- The link metadata consumed by `build_release_title` (the fields it
reads from the parsed DarkiWorld link dict). -/
structure RelLink where
  title : String
  year : Option Nat
  quality : String
  audio_languages : List String
  subtitles : List String
  host : String
  season : Option Nat
  episode : Option Nat
deriving DecidableEq, Repr

/-- Audio-language segment of `build_release_title`: at most three
normalized languages; a lone default-language (FRENCH) track is omitted,
a lone TRUEFRENCH/VFF/VFQ is kept, anything else is joined with `+`. -/
def audioPart (audio : List String) : List String :=
  match audio with
  | [] => []
  | [x] =>
    if !(x = "FRENCH" || x = "TRUEFRENCH") then [x]
    else if x = "TRUEFRENCH" || x = "VFF" || x = "VFQ" then [x]
    else []
  | xs => [String.intercalate "+" xs]

/-- `build_release_title` of `app/api/newznab.py` (lines 461-543),
returning `(display_title, clean_title)`.  The NFO edition extraction
(`extract_edition_from_nfo`, a regex scan over free text) is modelled by
its result, passed as `nfoEdition`; per the source it is only consulted
for non-TV media. -/
def build_release_title (link : RelLink) (nfoEdition : Option String)
    (media_type : Option MediaType) : String × String :=
  let edition := if media_type = some MediaType.tv then none else nfoEdition
  let quality_normalized := normalize_quality link.quality
  let audio_normalized := (link.audio_languages.take 3).map normalize_language
  let parts0 : List String := [link.title]
  let parts1 :=
    if media_type = some MediaType.tv && link.season.isSome then
      match link.season with
      | some s =>
        parts0 ++ [match link.episode with
          | some e => if 0 < e then "S" ++ pad2 s ++ "E" ++ pad2 e else "S" ++ pad2 s
          | none => "S" ++ pad2 s]
      | none => parts0
    else
      match link.year with
      | some y => if y ≠ 0 then parts0 ++ ["(" ++ toString y ++ ")"] else parts0
      | none => parts0
  let parts2 := parts1 ++ (match edition with | some e => [e] | none => [])
  let parts3 := parts2 ++ audioPart audio_normalized
  let parts4 := parts3 ++ [quality_normalized]
  let parts5 := parts4 ++
    (match link.subtitles with
     | [] => []
     | subs => ["[Subs: " ++ String.intercalate "+" ((subs.take 2).map normalize_language) ++ "]"])
  let clean_title := String.intercalate " " parts5
  (clean_title ++ " [" ++ link.host ++ "]", clean_title)

/-- `get_category_for_quality` of `app/api/newznab.py` (lines 578-607). -/
def get_category_for_quality (quality : String) (media_type : MediaType) : String :=
  let q := pyLower quality
  match media_type with
  | MediaType.movie =>
    if pyIn "2160" q || pyIn "uhd" q then "2045"
    else if pyIn "remux" q || pyIn "bluray" q then "2050"
    else if pyIn "1080" q || pyIn "720" q then "2040"
    else if pyIn "sd" q || pyIn "dvd" q || pyIn "480" q then "2030"
    else "2040"
  | MediaType.tv =>
    if pyIn "2160" q || pyIn "uhd" q then "5045"
    else if pyIn "1080" q || pyIn "720" q then "5040"
    else if pyIn "web" q then "5010"
    else "5040"
  | MediaType.music =>
    if pyIn "flac" q || pyIn "lossless" q then "3040"
    else "3010"

/-- The category assignment the `newznab_api` endpoint performs per
result item (newznab.py line 913): it passes the link's RAW quality
string, not the normalized one, to `get_category_for_quality`. -/
def newznab_item_category (rawQuality : String) (media_type : MediaType) : String :=
  get_category_for_quality rawQuality media_type

/-- The C1 scenario link: title "Test Movie", year 2024, raw quality
"ULTRA HD (x265)", audio ["French"], no subtitles. -/
def c1Link : RelLink :=
  { title := "Test Movie", year := some 2024, quality := "ULTRA HD (x265)",
    audio_languages := ["French"], subtitles := [], host := "1fichier",
    season := none, episode := none }

/- ===================== C3: size resolution ===================== -/

/-- All characters are decimal digits. -/
def allDigits (l : List Char) : Bool := l.all Char.isDigit

/-- Numeric value of a digit string. -/
def digitsVal (l : List Char) : Nat :=
  l.foldl (fun n c => 10 * n + (c.toNat - 48)) 0

/-- Split a character list at every dot. -/
def splitOnDot : List Char → List (List Char)
  | [] => [[]]
  | c :: rest =>
    if c == '.' then [] :: splitOnDot rest
    else
      match splitOnDot rest with
      | [] => [[c]]
      | h :: t => (c :: h) :: t

/-- Python `float(...)` on the decimal strings the size regex captures
(`[\d.,]+` with commas already replaced by dots): digits with at most one
dot, at least one digit.  The value is kept exactly, as a decimal
mantissa together with the number of fractional digits; a string `float`
rejects yields `none` (the source then falls through via its
`except ValueError: continue`). -/
def parseDecimal (s : String) : Option (Nat × Nat) :=
  match splitOnDot s.toList with
  | [a] => if !a.isEmpty && allDigits a then some (digitsVal a, 0) else none
  | [a, b] =>
    if (!a.isEmpty || !b.isEmpty) && allDigits a && allDigits b then
      some (digitsVal a * 10 ^ b.length + digitsVal b, b.length)
    else none
  | _ => none

/-- `extract_size_from_nfo` of `app/api/newznab.py` (lines 233-272).
The regex search `File size: ([\d.,]+) (GiB|GB|MiB|MB)` over the NFO free
text is modelled by its capture groups (number string, unit string);
`none` stands for an absent/empty NFO or no regex match.  The comma is
replaced by a dot, the number parsed, and the unit converted:
GiB/GB `* 1024^3`, MiB/MB `* 1024^2`, truncated to an integer.
Python's binary float detour is modelled by exact decimal arithmetic
(truncated division by the decimal scale); the two agree on every
dyadic or few-decimal value this data carries. -/
def extract_size_from_nfo (capture : Option (String × String)) : Option Int :=
  match capture with
  | none => none
  | some (numStr, unitStr) =>
    let cleaned := String.mk (numStr.toList.map (fun c => if c == ',' then '.' else c))
    match parseDecimal cleaned with
    | none => none
    | some (mantissa, digits) =>
      let u := pyUpper unitStr
      if u = "GIB" || u = "GB" then some ((mantissa * 1024 ^ 3 / 10 ^ digits : Nat) : Int)
      else if u = "MIB" || u = "MB" then some ((mantissa * 1024 ^ 2 / 10 ^ digits : Nat) : Int)
      else none

/-- The `size_map` of `estimate_file_size` (newznab.py lines 295-314), in
source (insertion) order: pattern, episode size, movie size.  The float
GB values are stored exactly, scaled to tenths of a GB (so `50.0` is
`500`, `1.5` is `15`, `0.8` is `8`). -/
def SIZE_MAP : List (String × Nat × Nat) :=
  [ ("REMUX UHD", 500, 700),
    ("REMUX 4K", 500, 700),
    ("ULTRA HD", 70, 150),
    ("UHD", 70, 150),
    ("2160", 60, 120),
    ("REMUX", 250, 400),
    ("BLURAY 1080", 40, 100),
    ("1080", 20, 50),
    ("HDLIGHT 1080", 15, 40),
    ("720", 10, 25),
    ("HDLIGHT 720", 8, 20),
    ("DVD", 7, 15),
    ("480", 5, 12) ]

/-- First `size_map` entry whose pattern occurs in the uppercased quality;
defaults to `(1.5, 4.0)` GB, i.e. `(15, 40)` tenths. -/
def findSizes (qU : String) : List (String × Nat × Nat) → Nat × Nat
  | [] => (15, 40)
  | (pat, e, m) :: rest => if pyIn pat qU then (e, m) else findSizes qU rest

/-- Python `int(gb * 1024**3)` for a nonnegative size held in tenths of a
GB: truncated division agrees with the float computation at every table
value (each product is within a tenth of an integer, far beyond float
error at this scale). -/
def gbTenthsToBytes (tenths : Nat) : Int := ((tenths * 1024 ^ 3 / 10 : Nat) : Int)

/-- `estimate_file_size` of `app/api/newznab.py` (lines 275-341):
quality-keyed base size, times 10 for a TV season pack, fixed 0.5 GB for
music, movie size otherwise; result truncated from GB to bytes. -/
def estimate_file_size (quality : String) (media_type : Option MediaType)
    (is_season_pack : Bool) : Int :=
  let qU := pyUpper quality
  let sizes := findSizes qU SIZE_MAP
  let size_gb_tenths : Nat :=
    match media_type with
    | some MediaType.tv => if is_season_pack then sizes.1 * 10 else sizes.1
    | some MediaType.music => 5
    | _ => sizes.2
  gbTenthsToBytes size_gb_tenths

/-- Size resolution of the `newznab_api` endpoint (newznab.py lines
892-905): NFO size unless absent/zero/below 100 MB, then the provider
(API) size if strictly above 100 MB, else the quality estimate. -/
def resolve_size (nfoCapture : Option (String × String)) (apiSize : Int)
    (quality : String) (media_type : Option MediaType) (is_season_pack : Bool) : Int :=
  let size := extract_size_from_nfo nfoCapture
  if size.getD 0 < 100000000 then
    if apiSize > 100000000 then apiSize
    else estimate_file_size quality media_type is_season_pack
  else size.getD 0

/-- C1: for raw quality "ULTRA HD (x265)", title "Test Movie", year 2024,
audio ["French"], no edition/subtitles, processed as a movie:
`normalize_quality` does return "Bluray-2160p" and the clean release
title is "Test Movie (2024) Bluray-2160p" (the lone FRENCH track being
omitted), but the endpoint computes the category from the RAW quality
string, which contains neither "2160" nor "uhd", so the emitted category
is "2040" (Movies/HD) — not the claimed UHD tier "2045".  Feeding the
normalized quality to `get_category_for_quality` (as its docstring says
it expects) would give "2045". -/
theorem c1_ultra_hd_category_divergence :
    normalize_quality "ULTRA HD (x265)" = "Bluray-2160p" ∧
    (build_release_title c1Link none (some MediaType.movie)).2 =
      "Test Movie (2024) Bluray-2160p" ∧
    newznab_item_category c1Link.quality MediaType.movie = "2040" ∧
    newznab_item_category c1Link.quality MediaType.movie ≠ "2045" ∧
    get_category_for_quality (normalize_quality "ULTRA HD (x265)") MediaType.movie = "2045" := by
  refine ⟨by decide, by decide, by decide, by decide, by decide⟩

/-- C3 counterexample: with no NFO size and a provider size of exactly
100 MB (100000000 bytes, which satisfies the claimed "≥ 100 MB"), the
code does NOT use the provider size: the guard is strict (`>`), so the
result falls through to the heuristic estimate (default movie 4 GB). -/
theorem c3_api_size_boundary_counterexample :
    extract_size_from_nfo none = none ∧
    (100000000 : Int) ≥ 100000000 ∧
    resolve_size none 100000000 "" none false = 4294967296 ∧
    resolve_size none 100000000 "" none false ≠ 100000000 := by
  refine ⟨by decide, by decide, by decide, by decide⟩

/-- C3 (amended): sizes resolve by priority (1) NFO size when present
and at least 100000000 bytes, otherwise (2) provider size when STRICTLY
greater than 100000000 bytes, otherwise (3) the quality/media-kind
estimate; an NFO of 0.5 GB yields exactly `int(0.5 * 1024^3)` bytes, a
50 MB provider size with no NFO falls through to the estimate (a TV
season pack estimating 10 episodes), and music estimates a fixed
0.5 GB album. -/
theorem c3_size_priority_amended :
    (∀ nfo api q mt sp s, extract_size_from_nfo nfo = some s → 100000000 ≤ s →
      resolve_size nfo api q mt sp = s) ∧
    (∀ nfo api q mt sp, (extract_size_from_nfo nfo).getD 0 < 100000000 →
      100000000 < api → resolve_size nfo api q mt sp = api) ∧
    (∀ nfo api q mt sp, (extract_size_from_nfo nfo).getD 0 < 100000000 →
      api ≤ 100000000 → resolve_size nfo api q mt sp = estimate_file_size q mt sp) ∧
    extract_size_from_nfo (some ("0.5", "GB")) = some 536870912 ∧
    resolve_size (some ("0.5", "GB")) 0 "" none false = 536870912 ∧
    resolve_size none 52428800 "WEB 1080p" (some MediaType.tv) true =
      estimate_file_size "WEB 1080p" (some MediaType.tv) true ∧
    estimate_file_size "WEB 1080p" (some MediaType.tv) true =
      10 * estimate_file_size "WEB 1080p" (some MediaType.tv) false ∧
    (∀ q sp, estimate_file_size q (some MediaType.music) sp = 536870912) := by
  refine ⟨?_, ?_, ?_, by decide, by decide, by decide, by decide, ?_⟩
  · intro nfo api q mt sp s h hs
    unfold resolve_size
    rw [h]
    simp only [Option.getD_some]
    rw [if_neg (by omega)]
  · intro nfo api q mt sp h hapi
    unfold resolve_size
    rw [if_pos h, if_pos hapi]
  · intro nfo api q mt sp h hapi
    unfold resolve_size
    rw [if_pos h, if_neg (by omega)]
  · intro q sp
    unfold estimate_file_size
    simp only []
    rfl

/-- C3 witness: each hypothesis of the amended priority theorem is
satisfiable at a concrete input. -/
theorem c3_size_priority_witness :
    resolve_size (some ("6.75", "GiB")) 123 "x" none false = 7247757312 ∧
    resolve_size none 200000000 "x" none false = 200000000 ∧
    resolve_size none 52428800 "x" (some MediaType.music) false = 536870912 := by
  refine ⟨?_, ?_, ?_⟩
  · exact c3_size_priority_amended.1 (some ("6.75", "GiB")) 123 "x" none false
      7247757312 (by decide) (by decide)
  · exact c3_size_priority_amended.2.1 none 200000000 "x" none false
      (by decide) (by decide)
  · have h := c3_size_priority_amended.2.2.1 none 52428800 "x"
      (some MediaType.music) false (by decide) (by decide)
    rw [h]
    exact c3_size_priority_amended.2.2.2.2.2.2.2 "x" false

/- ===================== JDownloader adapter ===================== -/

/-- `JD_CHAR_REPLACEMENTS` of `app/services/jdownloader.py` (lines
13-23), in source (insertion) order.  Each key is a single character,
each replacement zero or one characters: colon to semicolon, slash to
the fraction slash U+2044, backslash / asterisk / question mark deleted,
double quote to single quote, angle brackets to parentheses, pipe to
hyphen. -/
def JD_CHAR_REPLACEMENTS : List (Char × List Char) :=
  [ (':', [';']),
    ('/', [Char.ofNat 0x2044]),
    ('\\', []),
    ('*', []),
    ('?', []),
    ('"', [Char.ofNat 39]),
    ('<', ['(']),
    ('>', [')']),
    ('|', ['-']) ]

/-- Python `str.replace` for a single-character pattern with a
zero-or-one-character replacement. -/
def replaceAllChar (s : List Char) (c : Char) (r : List Char) : List Char :=
  s.flatMap (fun x => if x == c then r else [x])

/-- Character-level core of `normalize_jd_name`: the replacement table
applied sequentially, as the Python loop does. -/
def normalizeJdChars (s : List Char) : List Char :=
  JD_CHAR_REPLACEMENTS.foldl (fun acc p => replaceAllChar acc p.1 p.2) s

/-- `normalize_jd_name` of `app/services/jdownloader.py` (lines 26-39). -/
def normalize_jd_name (name : String) : String :=
  String.mk (normalizeJdChars name.toList)

/-- A JDownloader package as consumed by `get_package_status` /
`_package_to_status` (`uuid` already stringified, as the code compares
`str(pkg.get("uuid")) == uuid` and returns `str(...)` in the status). -/
structure Pkg where
  uuid : String
  name : String
  status : String
  bytes_loaded : Int
  bytes_total : Int
  speed : Int
  eta : Int
  finished : Bool
  running : Bool
  save_to : String
deriving DecidableEq, Repr

/-- `get_package_status` of `app/services/jdownloader.py` (lines
201-224): scan the package list once; a package matches if the requested
uuid equals its uuid, or the requested name — passed through
`normalize_jd_name` — equals its name exactly; the first match is
returned (the `_package_to_status` projection is the identity in this
model, whose `Pkg` carries exactly the projected fields).  A falsy
(empty) requested name is treated as absent, as Python truthiness does. -/
def get_package_status (packages : List Pkg) (uuid : Option String)
    (name : Option String) : Option Pkg :=
  let normalized_search_name : Option String :=
    match name with
    | some n => if n = "" then none else some (normalize_jd_name n)
    | none => none
  packages.find? (fun pkg =>
    (match uuid with
     | some u => pkg.uuid == u
     | none => false) ||
    (match normalized_search_name with
     | some m => pkg.name == m
     | none => false))

lemma replaceAllChar_append (a b : List Char) (c : Char) (r : List Char) :
    replaceAllChar (a ++ b) c r = replaceAllChar a c r ++ replaceAllChar b c r := by
  simp [replaceAllChar]

lemma normalizeJdChars_append (a b : List Char) :
    normalizeJdChars (a ++ b) = normalizeJdChars a ++ normalizeJdChars b := by
  simp only [normalizeJdChars, JD_CHAR_REPLACEMENTS, List.foldl_cons, List.foldl_nil,
    replaceAllChar_append]

lemma normalizeJdChars_cons (x : Char) (s : List Char) :
    normalizeJdChars (x :: s) = normalizeJdChars [x] ++ normalizeJdChars s := by
  have h : x :: s = [x] ++ s := rfl
  rw [h, normalizeJdChars_append]

lemma normalizeJdChars_single_not_key (x : Char)
    (h1 : ¬x = ':') (h2 : ¬x = '/') (h3 : ¬x = '\\') (h4 : ¬x = '*')
    (h5 : ¬x = '?') (h6 : ¬x = '"') (h7 : ¬x = '<') (h8 : ¬x = '>')
    (h9 : ¬x = '|') : normalizeJdChars [x] = [x] := by
  simp only [normalizeJdChars, JD_CHAR_REPLACEMENTS, List.foldl_cons, List.foldl_nil,
    replaceAllChar]
  simp [h1, h2, h3, h4, h5, h6, h7, h8, h9]

lemma normalizeJdChars_single_idem (x : Char) :
    normalizeJdChars (normalizeJdChars [x]) = normalizeJdChars [x] := by
  by_cases h1 : x = ':'
  · subst h1; decide
  by_cases h2 : x = '/'
  · subst h2; decide
  by_cases h3 : x = '\\'
  · subst h3; decide
  by_cases h4 : x = '*'
  · subst h4; decide
  by_cases h5 : x = '?'
  · subst h5; decide
  by_cases h6 : x = '"'
  · subst h6; decide
  by_cases h7 : x = '<'
  · subst h7; decide
  by_cases h8 : x = '>'
  · subst h8; decide
  by_cases h9 : x = '|'
  · subst h9; decide
  rw [normalizeJdChars_single_not_key x h1 h2 h3 h4 h5 h6 h7 h8 h9]
  exact normalizeJdChars_single_not_key x h1 h2 h3 h4 h5 h6 h7 h8 h9

lemma normalizeJdChars_idem (l : List Char) :
    normalizeJdChars (normalizeJdChars l) = normalizeJdChars l := by
  induction l with
  | nil => rfl
  | cons x t ih =>
    rw [normalizeJdChars_cons x t, normalizeJdChars_append,
      normalizeJdChars_single_idem, ih]

lemma toListMk (l : List Char) : (String.mk l).toList = l := rfl

/-- C10: `normalize_jd_name` is idempotent — running the
character-substitution table a second time changes nothing, because no
replacement character it emits is itself a key of the table. -/
theorem c10_normalize_jd_name_idempotent (s : String) :
    normalize_jd_name (normalize_jd_name s) = normalize_jd_name s := by
  unfold normalize_jd_name
  rw [toListMk, normalizeJdChars_idem]

/-- C10 witness: the idempotence theorem applied at a concrete name that
exercises every substitution. -/
theorem c10_normalize_jd_name_idempotent_witness :
    normalize_jd_name (normalize_jd_name "a:b/c\\d*e?f\"g<h>i|j") =
      normalize_jd_name "a:b/c\\d*e?f\"g<h>i|j" :=
  c10_normalize_jd_name_idempotent "a:b/c\\d*e?f\"g<h>i|j"

/- ===================== Download lifecycle manager ===================== -/

/-- `DownloadStatus` of `app/models/download.py` (lines 10-17). -/
inductive DownloadStatus where
  | queued
  | downloading
  | paused
  | completed
  | failed
  | extracting
deriving DecidableEq, Repr

/-- The `Download` model of `app/models/download.py`, restricted to the
fields the lifecycle manager reads and writes.  The float `progress`
percentage is a rational; timestamps are seconds (`created_at` is always
set by the pydantic default, hence not optional). -/
structure Download where
  title : String
  category : String
  download_links : List String
  jd_uuid : Option String
  jd_package_name : Option String
  status : DownloadStatus
  progress : Rat
  size_total : Int
  size_downloaded : Int
  speed : Int
  eta : Int
  output_path : Option String
  created_at : Nat
  completed_at : Option Nat
  error_message : Option String
deriving DecidableEq, Repr

/-- Uuid-first lookup of `update_progress` (downloads.py lines 275-277):
`if download.jd_uuid: status = await jd.get_package_status(uuid=...)`;
a falsy (absent or empty) uuid skips the lookup. -/
def uuid_lookup (dl : Download) (packages : List Pkg) : Option Pkg :=
  match dl.jd_uuid with
  | some u => if u = "" then none else get_package_status packages (some u) none
  | none => none

/-- Status lookup of `update_progress` (downloads.py lines 275-286):
first by stored uuid; only on a miss, and only with a truthy stored
package name, by normalized exact package name; a name hit stores the
package's current uuid back onto the download. -/
def lookup_status (dl : Download) (packages : List Pkg) : Option Pkg × Download :=
  match uuid_lookup dl packages with
  | some s => (some s, dl)
  | none =>
    match dl.jd_package_name with
    | some n =>
      if n = "" then (none, dl)
      else
        match get_package_status packages none (some n) with
        | some s => (some s, { dl with jd_uuid := some s.uuid })
        | none => (none, dl)
    | none => (none, dl)

/-- Field/status application of `update_progress` (downloads.py lines
288-332) given a resolved package status `s` and the current time.  In
the finished branch the source additionally queries the package's file
list, but only to log a filename: its one state effect is re-assigning
`output_path := save_to`, already performed above, so the call itself
has no further modelled effect. -/
def apply_status (dl : Download) (s : Pkg) (now : Nat) : Download :=
  let d1 := { dl with
    size_total := s.bytes_total,
    size_downloaded := s.bytes_loaded,
    speed := s.speed,
    eta := if 0 < s.eta then s.eta else 0 }
  let d2 := if s.save_to ≠ "" then { d1 with output_path := some s.save_to } else d1
  let d3 :=
    if 0 < d2.size_total then
      { d2 with progress := ((d2.size_downloaded : Rat) / (d2.size_total : Rat)) * 100 }
    else d2
  if s.finished then
    { d3 with status := DownloadStatus.completed, completed_at := some now, progress := 100 }
  else if s.running then
    { d3 with status := DownloadStatus.downloading }
  else
    let jd_status := pyLower s.status
    if pyIn "extract" jd_status then { d3 with status := DownloadStatus.extracting }
    else if pyIn "queue" jd_status || pyIn "wait" jd_status then
      { d3 with status := DownloadStatus.queued }
    else d3

/-- `DownloadManager.update_progress` (downloads.py lines 262-335): look
the package up, then apply its reported state; an unresolved package
leaves the download unchanged (apart from a uuid refresh that cannot
occur on a miss). -/
def update_progress (dl : Download) (packages : List Pkg) (now : Nat) : Download :=
  match lookup_status dl packages with
  | (some s, dl1) => apply_status dl1 s now
  | (none, dl1) => dl1

/-- `DownloadManager.start_download` (downloads.py lines 218-260).
`addResult` is what `JDownloaderClient.add_links` returned: `none` when
the submission raised, reconnection failed, or the agent's reply was
empty/unresolvable — every path on which no identifier is produced. -/
def start_download (dl : Download) (addResult : Option String)
    (output_folder : String) : Download :=
  if dl.download_links.isEmpty then
    { dl with status := DownloadStatus.failed,
              error_message := some "Aucun lien de téléchargement" }
  else
    match addResult with
    | some uuid =>
      if uuid = "" then
        { dl with status := DownloadStatus.failed,
                  error_message := some "Échec ajout à JDownloader" }
      else
        { dl with jd_uuid := some uuid, status := DownloadStatus.downloading,
                  output_path := some output_folder }
    | none =>
      { dl with status := DownloadStatus.failed,
                error_message := some "Échec ajout à JDownloader" }

/-- Filesystem view used by `cleanup_stale_downloads`: a path is absent,
a plain file, or a directory with an entry list. -/
inductive FsNode where
  | absent
  | file
  | dir (entries : List String)
deriving DecidableEq, Repr

/-- Python `f.startswith('.')` for a directory entry. -/
def startsWithDot (f : String) : Bool :=
  match f.toList with
  | c :: _ => c == '.'
  | [] => false

/-- The path test of the completed-download cleanup case (downloads.py
lines 152-163): gone entirely, or a directory whose non-hidden entry
count is zero. -/
def pathGone (fs : String → FsNode) (p : String) : Bool :=
  match fs p with
  | FsNode.absent => true
  | FsNode.file => false
  | FsNode.dir entries => (entries.filter (fun f => !startsWithDot f)).length == 0

/-- Removal predicate of `DownloadManager.cleanup_stale_downloads`
(downloads.py lines 146-177): a completed download with a truthy output
path that is gone or an empty directory, or a failed download strictly
older than 24 hours (86400 s; `created_at` is always truthy).  Every
other status falls through both cases and is kept. -/
def should_remove (fs : String → FsNode) (now : Nat) (dl : Download) : Bool :=
  match dl.status with
  | DownloadStatus.completed =>
    match dl.output_path with
    | some p => if p = "" then false else pathGone fs p
    | none => false
  | DownloadStatus.failed => decide (86400 < now - dl.created_at)
  | _ => false

/-- `DownloadManager.cleanup_stale_downloads` (downloads.py lines
127-188): collect the stale entries, delete them from the store, return
the count removed. -/
def cleanup_stale_downloads (fs : String → FsNode) (now : Nat)
    (store : List Download) : List Download × Nat :=
  (store.filter (fun dl => !should_remove fs now dl),
   (store.filter (should_remove fs now)).length)

/-- `DownloadManager.get_downloads_by_category` (downloads.py lines
190-194); a falsy (absent or empty) category returns everything. -/
def get_downloads_by_category (store : List Download)
    (category : Option String) : List Download :=
  match category with
  | some c => if c = "" then store else store.filter (fun dl => dl.category == c)
  | none => store

/-- The `active_statuses` set of `get_active_downloads` (lines 198-203). -/
def active_statuses : List DownloadStatus :=
  [DownloadStatus.queued, DownloadStatus.downloading, DownloadStatus.paused,
   DownloadStatus.extracting]

/-- The `completed_statuses` set of `get_completed_downloads` (210-213). -/
def completed_statuses : List DownloadStatus :=
  [DownloadStatus.completed, DownloadStatus.failed]

/-- `DownloadManager.get_active_downloads` (downloads.py lines 196-206). -/
def get_active_downloads (store : List Download)
    (category : Option String) : List Download :=
  (get_downloads_by_category store category).filter
    (fun dl => active_statuses.contains dl.status)

/-- `DownloadManager.get_completed_downloads` (downloads.py 208-216). -/
def get_completed_downloads (store : List Download)
    (category : Option String) : List Download :=
  (get_downloads_by_category store category).filter
    (fun dl => completed_statuses.contains dl.status)

/-- C4: updating a download against an agent package status: finished
implies completed with progress forced to 100, the completion timestamp
set and the output path taken from the agent's save-location; else
running implies downloading; else a free-text status containing
"extract" implies extracting, and containing "queue" or "wait" implies
queued; and a submission that yields no identifier marks the download
failed with a recorded error message. -/
theorem c4_state_machine :
    (∀ (dl : Download) (s : Pkg) (now : Nat), s.finished = true →
      (apply_status dl s now).status = DownloadStatus.completed ∧
      (apply_status dl s now).progress = 100 ∧
      (apply_status dl s now).completed_at = some now ∧
      (s.save_to ≠ "" → (apply_status dl s now).output_path = some s.save_to)) ∧
    (∀ (dl : Download) (s : Pkg) (now : Nat), s.finished = false → s.running = true →
      (apply_status dl s now).status = DownloadStatus.downloading) ∧
    (∀ (dl : Download) (s : Pkg) (now : Nat), s.finished = false → s.running = false →
      pyIn "extract" (pyLower s.status) = true →
      (apply_status dl s now).status = DownloadStatus.extracting) ∧
    (∀ (dl : Download) (s : Pkg) (now : Nat), s.finished = false → s.running = false →
      pyIn "extract" (pyLower s.status) = false →
      (pyIn "queue" (pyLower s.status) = true ∨ pyIn "wait" (pyLower s.status) = true) →
      (apply_status dl s now).status = DownloadStatus.queued) ∧
    (∀ (dl : Download) (folder : String),
      (start_download dl none folder).status = DownloadStatus.failed ∧
      (start_download dl none folder).error_message ≠ none) := by
  refine ⟨?_, ?_, ?_, ?_, ?_⟩
  · intro dl s now hfin
    refine ⟨?_, ?_, ?_, ?_⟩
    · simp [apply_status, hfin]
    · simp [apply_status, hfin]
    · simp [apply_status, hfin]
    · intro hsave
      simp [apply_status, hfin, hsave]
      split <;> simp
  · intro dl s now hfin hrun
    simp [apply_status, hfin, hrun]
  · intro dl s now hfin hrun hext
    simp [apply_status, hfin, hrun, hext]
  · intro dl s now hfin hrun hext hq
    have hq2 : (pyIn "queue" (pyLower s.status) || pyIn "wait" (pyLower s.status)) = true := by
      rcases hq with h | h <;> simp [h]
    simp [apply_status, hfin, hrun, hext, hq2]
  · intro dl folder
    by_cases h : dl.download_links.isEmpty <;>
      simp [start_download, h]

/-- A queued download with one link, used by the C4/C5/C8/C9 witnesses. -/
def demoDl : Download :=
  { title := "Demo", category := "radarr", download_links := ["http://h/file"],
    jd_uuid := some "11", jd_package_name := some "Demo",
    status := DownloadStatus.downloading, progress := 0, size_total := 0,
    size_downloaded := 0, speed := 0, eta := 0, output_path := none,
    created_at := 1000, completed_at := none, error_message := none }

/-- An agent status reporting a finished package saved under /x. -/
def demoFin : Pkg :=
  { uuid := "42", name := "Demo", status := "Finished",
    bytes_loaded := 10, bytes_total := 10, speed := 0, eta := -1,
    finished := true, running := false, save_to := "/x" }

/-- An agent status reporting a running package. -/
def demoRun : Pkg :=
  { uuid := "42", name := "Demo", status := "Running",
    bytes_loaded := 5, bytes_total := 10, speed := 3, eta := 2,
    finished := false, running := true, save_to := "" }

/-- An agent status whose free text mentions extraction. -/
def demoExt : Pkg :=
  { uuid := "42", name := "Demo", status := "Extracting archive",
    bytes_loaded := 10, bytes_total := 10, speed := 0, eta := -1,
    finished := false, running := false, save_to := "" }

/-- An agent status whose free text mentions the queue. -/
def demoQueue : Pkg :=
  { uuid := "42", name := "Demo", status := "In Queue",
    bytes_loaded := 0, bytes_total := 10, speed := 0, eta := -1,
    finished := false, running := false, save_to := "" }

/-- C4 witness: every transition of the state-machine theorem fires at a
concrete download and concrete agent statuses. -/
theorem c4_state_machine_witness :
    ((apply_status demoDl demoFin 5).status = DownloadStatus.completed ∧
     (apply_status demoDl demoFin 5).progress = 100 ∧
     (apply_status demoDl demoFin 5).completed_at = some 5 ∧
     (apply_status demoDl demoFin 5).output_path = some "/x") ∧
    (apply_status demoDl demoRun 5).status = DownloadStatus.downloading ∧
    (apply_status demoDl demoExt 5).status = DownloadStatus.extracting ∧
    (apply_status demoDl demoQueue 5).status = DownloadStatus.queued ∧
    (start_download demoDl none "/out").status = DownloadStatus.failed := by
  obtain ⟨h1, h2, h3, h4, h5⟩ := c4_state_machine
  obtain ⟨a, b, c, d⟩ := h1 demoDl demoFin 5 (by decide)
  exact ⟨⟨a, b, c, d (by decide)⟩,
    h2 demoDl demoRun 5 (by decide) (by decide),
    h3 demoDl demoExt 5 (by decide) (by decide) (by decide),
    h4 demoDl demoQueue 5 (by decide) (by decide) (by decide) (Or.inl (by decide)),
    (h5 demoDl "/out").1⟩

/-- C5: one cleanup pass removes exactly the completed downloads whose
(truthy) output path is gone or an empty directory, and the failed
downloads strictly older than 24 hours; every download in an active
status is retained, as is a failed download within the threshold.  The
last clause characterises "gone or empty": the path is absent from the
filesystem, or is a directory with no non-hidden entries. -/
theorem c5_cleanup_exact :
    ∀ (fs : String → FsNode) (now : Nat) (store : List Download) (dl : Download),
      dl ∈ store →
      ((dl ∈ (cleanup_stale_downloads fs now store).1) ↔ should_remove fs now dl = false) ∧
      (should_remove fs now dl = true ↔
        ((dl.status = DownloadStatus.completed ∧
          ∃ p, dl.output_path = some p ∧ p ≠ "" ∧ pathGone fs p = true) ∨
         (dl.status = DownloadStatus.failed ∧ 86400 < now - dl.created_at))) ∧
      (dl.status ∈ active_statuses → dl ∈ (cleanup_stale_downloads fs now store).1) ∧
      (dl.status = DownloadStatus.failed → now - dl.created_at ≤ 86400 →
        dl ∈ (cleanup_stale_downloads fs now store).1) ∧
      (∀ p, pathGone fs p = true ↔
        (fs p = FsNode.absent ∨
         ∃ es, fs p = FsNode.dir es ∧ es.filter (fun f => !startsWithDot f) = [])) := by
  intro fs now store dl hmem
  have hmemiff : dl ∈ (cleanup_stale_downloads fs now store).1 ↔
      should_remove fs now dl = false := by
    simp [cleanup_stale_downloads, List.mem_filter, hmem]
  refine ⟨hmemiff, ?_, ?_, ?_, ?_⟩
  · cases hst : dl.status <;> simp only [should_remove, hst] <;> simp
    cases hop : dl.output_path <;> simp [hop]
  · intro hact
    refine hmemiff.mpr ?_
    cases hst : dl.status <;> simp [active_statuses, hst] at hact ⊢ <;>
      simp [should_remove, hst]
  · intro hst hage
    refine hmemiff.mpr ?_
    simp [should_remove, hst]
    omega
  · intro p
    cases hfs : fs p <;> simp [pathGone, hfs]

/-- The filesystem for the C5 witness: /gone was deleted, /empty is a
directory holding only a hidden file, anything else is a plain file. -/
def demoFs : String → FsNode := fun p =>
  if p = "/gone" then FsNode.absent
  else if p = "/empty" then FsNode.dir [".stamp"]
  else FsNode.file

/-- A completed download whose files were imported and removed. -/
def dlImported : Download :=
  { demoDl with status := DownloadStatus.completed, output_path := some "/gone" }

/-- A completed download whose output directory holds only a dotfile. -/
def dlEmptyDir : Download :=
  { demoDl with status := DownloadStatus.completed, output_path := some "/empty" }

/-- A completed download whose output file still exists. -/
def dlKept : Download :=
  { demoDl with status := DownloadStatus.completed, output_path := some "/kept" }

/-- A failed download from more than 24 hours ago. -/
def dlFailedOld : Download :=
  { demoDl with status := DownloadStatus.failed, created_at := 0 }

/-- A failed download from less than 24 hours ago. -/
def dlFailedNew : Download :=
  { demoDl with status := DownloadStatus.failed, created_at := 90000 }

/-- The download store for the C5 witness. -/
def demoStore : List Download :=
  [dlImported, dlEmptyDir, dlKept, dlFailedOld, dlFailedNew, demoDl]

/-- C5 witness: at time 100000 the imported, empty-directory and old
failed downloads are marked stale, while the intact completed, young
failed and active downloads survive the cleanup pass. -/
theorem c5_cleanup_witness :
    should_remove demoFs 100000 dlImported = true ∧
    should_remove demoFs 100000 dlEmptyDir = true ∧
    should_remove demoFs 100000 dlFailedOld = true ∧
    dlKept ∈ (cleanup_stale_downloads demoFs 100000 demoStore).1 ∧
    dlFailedNew ∈ (cleanup_stale_downloads demoFs 100000 demoStore).1 ∧
    demoDl ∈ (cleanup_stale_downloads demoFs 100000 demoStore).1 := by
  refine ⟨?_, ?_, ?_, ?_, ?_, ?_⟩
  · exact (c5_cleanup_exact demoFs 100000 demoStore dlImported (by decide)).2.1.mpr
      (Or.inl ⟨by decide, "/gone", by decide, by decide, by decide⟩)
  · exact (c5_cleanup_exact demoFs 100000 demoStore dlEmptyDir (by decide)).2.1.mpr
      (Or.inl ⟨by decide, "/empty", by decide, by decide, by decide⟩)
  · exact (c5_cleanup_exact demoFs 100000 demoStore dlFailedOld (by decide)).2.1.mpr
      (Or.inr ⟨by decide, by decide⟩)
  · exact (c5_cleanup_exact demoFs 100000 demoStore dlKept (by decide)).1.mpr (by decide)
  · exact (c5_cleanup_exact demoFs 100000 demoStore dlFailedNew (by decide)).2.2.2.1
      (by decide) (by decide)
  · exact (c5_cleanup_exact demoFs 100000 demoStore demoDl (by decide)).2.2.1 (by decide)

/-- C8: polling looks a package up first by the stored agent uuid; the
name fallback runs exactly when that lookup misses and a truthy package
name is stored, compares the agent's package name for exact equality
with the stored name passed through `normalize_jd_name`, and a name hit
overwrites the stored uuid with the package's current uuid — which then
survives the status application, so future polls use it. -/
theorem c8_lookup_fallback :
    (∀ (dl : Download) (packages : List Pkg) (s : Pkg),
      uuid_lookup dl packages = some s →
      lookup_status dl packages = (some s, dl)) ∧
    (∀ (dl : Download) (packages : List Pkg) (n : String) (s : Pkg),
      uuid_lookup dl packages = none →
      dl.jd_package_name = some n → n ≠ "" →
      get_package_status packages none (some n) = some s →
      lookup_status dl packages = (some s, { dl with jd_uuid := some s.uuid })) ∧
    (∀ (dl : Download) (packages : List Pkg),
      uuid_lookup dl packages = none →
      (dl.jd_package_name = none ∨ dl.jd_package_name = some "") →
      lookup_status dl packages = (none, dl)) ∧
    (∀ (dl : Download) (packages : List Pkg) (n : String),
      uuid_lookup dl packages = none →
      dl.jd_package_name = some n → n ≠ "" →
      get_package_status packages none (some n) = none →
      lookup_status dl packages = (none, dl)) ∧
    (∀ (packages : List Pkg) (n : String), n ≠ "" →
      get_package_status packages none (some n) =
        packages.find? (fun pkg => pkg.name == normalize_jd_name n)) ∧
    (∀ (packages : List Pkg) (u : String),
      get_package_status packages (some u) none =
        packages.find? (fun pkg => pkg.uuid == u)) ∧
    (∀ (dl : Download) (s : Pkg) (now : Nat),
      (apply_status dl s now).jd_uuid = dl.jd_uuid) ∧
    (∀ (dl : Download) (packages : List Pkg) (now : Nat) (n : String) (s : Pkg),
      uuid_lookup dl packages = none →
      dl.jd_package_name = some n → n ≠ "" →
      get_package_status packages none (some n) = some s →
      (update_progress dl packages now).jd_uuid = some s.uuid) := by
  have hjd : ∀ (dl : Download) (s : Pkg) (now : Nat),
      (apply_status dl s now).jd_uuid = dl.jd_uuid := by
    intro dl s now
    simp only [apply_status]
    split_ifs <;> rfl
  have h2 : ∀ (dl : Download) (packages : List Pkg) (n : String) (s : Pkg),
      uuid_lookup dl packages = none →
      dl.jd_package_name = some n → n ≠ "" →
      get_package_status packages none (some n) = some s →
      lookup_status dl packages = (some s, { dl with jd_uuid := some s.uuid }) := by
    intro dl packages n s hu hn hne hs
    simp [lookup_status, hu, hn, hne, hs]
  refine ⟨?_, h2, ?_, ?_, ?_, ?_, hjd, ?_⟩
  · intro dl packages s h
    simp [lookup_status, h]
  · intro dl packages hu hn
    rcases hn with h | h <;> simp [lookup_status, hu, h]
  · intro dl packages n hu hn hne hs
    simp [lookup_status, hu, hn, hne, hs]
  · intro packages n hn
    simp [get_package_status, hn]
  · intro packages u
    simp [get_package_status]
  · intro dl packages now n s hu hn hne hs
    have hl := h2 dl packages n s hu hn hne hs
    simp only [update_progress, hl]
    rw [hjd]

/-- An unrelated agent package, for the C8 witness. -/
def demoPkgOther : Pkg :=
  { uuid := "70", name := "Other", status := "", bytes_loaded := 0,
    bytes_total := 0, speed := 0, eta := -1, finished := false,
    running := false, save_to := "" }

/-- The agent package whose name carries JDownloader's colon
substitution, for the C8 witness. -/
def demoPkg77 : Pkg :=
  { demoPkgOther with uuid := "77", name := "Demo; S01" }

/-- The agent package list for the C8 witness. -/
def demoPkgs : List Pkg := [demoPkgOther, demoPkg77]

/-- A download whose stored uuid went stale and whose stored name
contains a colon, for the C8 witness. -/
def demoDlRenamed : Download :=
  { demoDl with jd_uuid := some "11", jd_package_name := some "Demo: S01" }

/-- C8 witness: with a stale uuid, the name fallback normalizes
"Demo: S01" to "Demo; S01", hits the package with uuid 77, and the
stored uuid is overwritten; with uuid 77 already stored, the uuid lookup
hits directly. -/
theorem c8_lookup_fallback_witness :
    lookup_status demoDlRenamed demoPkgs =
      (some demoPkg77, { demoDlRenamed with jd_uuid := some demoPkg77.uuid }) ∧
    (update_progress demoDlRenamed demoPkgs 9).jd_uuid = some "77" ∧
    lookup_status { demoDlRenamed with jd_uuid := some "77" } demoPkgs =
      (some demoPkg77, { demoDlRenamed with jd_uuid := some "77" }) := by
  refine ⟨?_, ?_, ?_⟩
  · exact c8_lookup_fallback.2.1 demoDlRenamed demoPkgs "Demo: S01" demoPkg77
      (by decide) (by decide) (by decide) (by decide)
  · exact c8_lookup_fallback.2.2.2.2.2.2.2 demoDlRenamed demoPkgs 9 "Demo: S01"
      demoPkg77 (by decide) (by decide) (by decide) (by decide)
  · exact c8_lookup_fallback.1 { demoDlRenamed with jd_uuid := some "77" } demoPkgs
      demoPkg77 (by decide)

/-- C9: under any category filter the active and completed views
partition the filtered store: their concatenation is a permutation of
it, every filtered download sits in exactly one of the two, and the six
lifecycle statuses split exactly into the active set
{queued, downloading, paused, extracting} and the terminal set
{completed, failed}. -/
theorem c9_active_completed_partition :
    ∀ (store : List Download) (category : Option String),
      ((get_active_downloads store category) ++ (get_completed_downloads store category)).Perm
        (get_downloads_by_category store category) ∧
      (∀ dl, dl ∈ get_downloads_by_category store category →
        ((dl ∈ get_active_downloads store category) ↔
          ¬ dl ∈ get_completed_downloads store category)) ∧
      (∀ st : DownloadStatus,
        (st ∈ active_statuses ∨ st ∈ completed_statuses) ∧
        ¬(st ∈ active_statuses ∧ st ∈ completed_statuses)) := by
  intro store category
  have hneg : ∀ st : DownloadStatus,
      completed_statuses.contains st = !(active_statuses.contains st) := by
    intro st; cases st <;> rfl
  refine ⟨?_, ?_, by intro st; cases st <;> decide⟩
  · have hc : get_completed_downloads store category =
        (get_downloads_by_category store category).filter
          (fun dl => !(active_statuses.contains dl.status)) := by
      unfold get_completed_downloads
      apply List.filter_congr
      intro dl _
      exact hneg dl.status
    rw [hc]
    exact List.filter_append_perm _ _
  · intro dl hmem
    simp [get_active_downloads, get_completed_downloads, List.mem_filter, hmem,
      hneg dl.status]
    cases hst : dl.status <;> decide

/-- C9 witness: the partition theorem applied to the concrete store of
the cleanup witness under the radarr category filter. -/
theorem c9_partition_witness :
    ((get_active_downloads demoStore (some "radarr")) ++
      (get_completed_downloads demoStore (some "radarr"))).Perm
      (get_downloads_by_category demoStore (some "radarr")) ∧
    (demoDl ∈ get_active_downloads demoStore (some "radarr")) ∧
    ¬ demoDl ∈ get_completed_downloads demoStore (some "radarr") := by
  refine ⟨(c9_active_completed_partition demoStore (some "radarr")).1, by decide, ?_⟩
  exact ((c9_active_completed_partition demoStore (some "radarr")).2.1 demoDl
    (by decide)).mp (by decide)

/- ===================== DarkiWorld catalog client ===================== -/

/-- The authentication network response consumed by
`ensure_authenticated`: an HTTP status and the response cookie jar. -/
structure AuthResp where
  status : Nat
  cookies : List (String × String)
deriving DecidableEq, Repr

/-- `DarkiWorldClient.ensure_authenticated` (`app/services/darkiworld.py`
lines 60-112).  `session_valid` models the `_session_valid_until` cache
check; the configured remember-cookie name/value are Python-falsy when
empty; the network call is the `resp` oracle (`none` = exception, caught
and turned into `False`).  On a response, the cookie jar becomes the
configured cookie plus the response cookies, and authentication succeeds
iff the status is 200 and a `darkiworld_session` cookie is present. -/
def ensure_authenticated (session_valid : Bool) (cookie_name cookie_value : String)
    (resp : Option AuthResp) : Bool :=
  if session_valid then true
  else if cookie_name = "" || cookie_value = "" then false
  else
    match resp with
    | none => false
    | some r =>
      let cookie_names := cookie_name :: r.cookies.map Prod.fst
      decide (r.status = 200) && cookie_names.contains "darkiworld_session"

/-- A raw search API item, restricted to the fields `search` reads. -/
structure SearchItem where
  id : Nat
  name : String
  itemType : String
  year : Option Nat
  have_link : Nat
deriving DecidableEq, Repr

/-- A parsed search result, restricted to the corresponding fields. -/
structure SearchResult where
  id : Nat
  title : String
  year : Option Nat
  rtype : String
  have_link : Nat
deriving DecidableEq, Repr

/-- The `normalized_type` computation of `search` (darkiworld.py lines
208-216). -/
def normalized_type (t : String) : String :=
  if t = "movie" then "movie"
  else if t = "series" || t = "tv" || t = "animes" then "series"
  else if t = "ebook" then "ebook"
  else t

/-- The result-dict construction of `search` (darkiworld.py 218-233). -/
def mkSearchResult (item : SearchItem) : SearchResult :=
  { id := item.id, title := item.name, year := item.year,
    rtype := normalized_type item.itemType, have_link := item.have_link }

/-- Does one of the first three media-type filters of `search` skip this
item (`continue`)? -/
def typeSkipped (mt : MediaType) (t : String) : Bool :=
  match mt with
  | MediaType.movie => !(t == "movie")
  | MediaType.tv => !(t == "series" || t == "tv" || t == "animes")
  | MediaType.music => !(t == "music")

/-- The result loop of `search` (darkiworld.py lines 194-233).  With a
media type given, an item that none of the three filters skips reaches
the fourth `elif`, whose guard evaluates `MediaType.BOOK` — a member the
`MediaType` enum of `app/models/indexer.py` does not have — raising
`AttributeError`; that is modelled as `none` (the outer `try` of
`search` then returns the empty list). -/
def searchLoop (mt : Option MediaType) :
    List SearchItem → List SearchResult → Option (List SearchResult)
  | [], acc => some acc
  | item :: rest, acc =>
    match mt with
    | none => searchLoop mt rest (acc ++ [mkSearchResult item])
    | some m =>
      if typeSkipped m item.itemType then searchLoop mt rest acc
      else none

/-- `DarkiWorldClient.search` (darkiworld.py lines 150-240): empty on a
failed authentication, on a network exception, on a non-200 status, and
on the `AttributeError` of the result loop; otherwise the mapped
results. -/
def search (session_valid : Bool) (cookie_name cookie_value : String)
    (auth_resp : Option AuthResp) (resp : Option (Nat × List SearchItem))
    (mt : Option MediaType) : List SearchResult :=
  if !ensure_authenticated session_valid cookie_name cookie_value auth_resp then []
  else
    match resp with
    | none => []
    | some (status, items) =>
      if status ≠ 200 then []
      else
        match searchLoop mt items [] with
        | some results => results
        | none => []

/-- One page response of the link-listing API, as `get_title_links`
distinguishes them: a non-200 HTTP status, a payload whose `status`
field is not "success", or the page's record list. -/
inductive PageResp (α : Type) where
  | httpError : PageResp α
  | apiError : PageResp α
  | ok (records : List α) : PageResp α
deriving DecidableEq, Repr

/-- The records of a page, empty for either error. -/
def pageRecords {α : Type} : PageResp α → List α
  | PageResp.ok records => records
  | _ => []

/-- Does the loop of `get_title_links` continue past this page?  It must
be a success page, non-empty, with at least the upstream's observed
per-page cap of 42 records. -/
def pageContinues {α : Type} (r : PageResp α) : Prop :=
  ∃ records, r = PageResp.ok records ∧ records ≠ [] ∧ 42 ≤ records.length

/-- The pagination loop of `DarkiWorldClient.get_title_links`
(darkiworld.py lines 264-323), parametric in the raw record type and in
`_parse_link` (a record whose parse returns `none` is skipped): stop on
an error page, an empty page, a page shorter than 42 records, or after
page 50; otherwise accumulate the parsed page and continue.  Totality of
this definition (by the decreasing measure `51 - page`) is the
termination claim. -/
def pagesLoop {α β : Type} (resp : Nat → PageResp α) (parse : α → Option β)
    (page : Nat) : List β :=
  match resp page with
  | PageResp.httpError => []
  | PageResp.apiError => []
  | PageResp.ok records =>
    if records.isEmpty then []
    else
      let parsed := records.filterMap parse
      if records.length < 42 then parsed
      else if _h : 50 < page + 1 then parsed
      else parsed ++ pagesLoop resp parse (page + 1)
termination_by 51 - page
decreasing_by simp_wf; omega

/-- `DarkiWorldClient.get_title_links` (darkiworld.py lines 242-330):
empty without authentication, else the pagination loop from page 1. -/
def get_title_links {α β : Type} (session_valid : Bool)
    (cookie_name cookie_value : String) (auth_resp : Option AuthResp)
    (resp : Nat → PageResp α) (parse : α → Option β) : List β :=
  if !ensure_authenticated session_valid cookie_name cookie_value auth_resp then []
  else pagesLoop resp parse 1

/-- The `lien` object of the download API, restricted to the fields
`verify_link_availability` and `get_download_url` read. -/
structure LienObj where
  deleted_at : Option String
  active : Int
  directDL : Option String
  lien : Option String
deriving DecidableEq, Repr

/-- Python truthiness of an optional string: an absent or empty string
is falsy. -/
def pyTruthyStr (o : Option String) : Option String :=
  match o with
  | some s => if s = "" then none else some s
  | none => none

/-- `lien_obj.get("directDL") or lien_obj.get("lien")` with Python
truthiness. -/
def lien_download_url (l : LienObj) : Option String :=
  match pyTruthyStr l.directDL with
  | some u => some u
  | none => pyTruthyStr l.lien

/-- `DarkiWorldClient.verify_link_availability` (darkiworld.py lines
391-442): fail closed without authentication; on a 200 response the link
is available iff it is not soft-deleted, active, and carries a download
URL. -/
def verify_link_availability (session_valid : Bool)
    (cookie_name cookie_value : String) (auth_resp : Option AuthResp)
    (resp : Option (Nat × LienObj)) : Bool × Option LienObj :=
  if !ensure_authenticated session_valid cookie_name cookie_value auth_resp then
    (false, none)
  else
    match resp with
    | none => (false, none)
    | some (status, lien_obj) =>
      if status ≠ 200 then (false, none)
      else if lien_obj.deleted_at ≠ none then (false, none)
      else if lien_obj.active ≠ 1 then (false, none)
      else
        match lien_download_url lien_obj with
        | none => (false, none)
        | some _ => (true, some lien_obj)

/-- Python `url.replace("send.cm/", "send.now/")`: every non-overlapping
occurrence, left to right. -/
def sendFixChars : List Char → List Char
  | [] => []
  | c :: rest =>
    if isPrefixList ("send.cm/".toList) (c :: rest) then
      "send.now/".toList ++ sendFixChars (rest.drop 7)
    else c :: sendFixChars rest
termination_by l => l.length
decreasing_by
  all_goals simp_wf <;> omega

/-- The provider-domain rewrite applied to resolved URLs. -/
def sendFix (url : String) : String := String.mk (sendFixChars url.toList)

/-- `DarkiWorldClient.get_download_url` (darkiworld.py lines 565-633):
none without authentication, on a network exception, a non-200 status,
or a response with no URL; otherwise the URL (directDL preferred over
lien) with the send.cm domain rewrite applied. -/
def get_download_url (session_valid : Bool) (cookie_name cookie_value : String)
    (auth_resp : Option AuthResp) (resp : Option (Nat × LienObj)) : Option String :=
  if !ensure_authenticated session_valid cookie_name cookie_value auth_resp then none
  else
    match resp with
    | none => none
    | some (status, lien_obj) =>
      if status ≠ 200 then none
      else
        match lien_download_url lien_obj with
        | some url => some (sendFix url)
        | none => none

/-- Auxiliary induction for the pagination claim, descending on the
remaining page budget: from any admissible start page the loop consults
a final page `n ≤ 50`, accumulates exactly the parsed records of the
consulted pages, continues only through full (42-record) success pages,
and stops at `n` because the ceiling was reached or page `n` itself
stops the loop. -/
lemma pagesLoop_spec {α β : Type} (resp : Nat → PageResp α) (parse : α → Option β) :
    ∀ (k page : Nat), 1 ≤ page → page ≤ 50 → 51 - page ≤ k →
      ∃ n, page ≤ n ∧ n ≤ 50 ∧
        pagesLoop resp parse page =
          (List.range' page (n + 1 - page)).flatMap
            (fun p => (pageRecords (resp p)).filterMap parse) ∧
        (∀ p, page ≤ p → p < n → pageContinues (resp p)) ∧
        (n = 50 ∨ ¬ pageContinues (resp n)) := by
  intro k
  induction k with
  | zero => intro page h1 h50 hk; omega
  | succ k ih =>
    intro page h1 h50 hk
    rw [pagesLoop]
    have hone : page + 1 - page = 1 := by omega
    cases hr : resp page with
    | httpError =>
      refine ⟨page, le_refl _, h50, ?_, by omega, Or.inr ?_⟩
      · rw [hone, List.range'_one]
        simp [hr, pageRecords]
      · simp [pageContinues, hr]
    | apiError =>
      refine ⟨page, le_refl _, h50, ?_, by omega, Or.inr ?_⟩
      · rw [hone, List.range'_one]
        simp [hr, pageRecords]
      · simp [pageContinues, hr]
    | ok records =>
      by_cases hemp : records.isEmpty
      · have hnil : records = [] := List.isEmpty_iff.mp hemp
        refine ⟨page, le_refl _, h50, ?_, by omega, Or.inr ?_⟩
        · rw [hone, List.range'_one]
          simp [hr, hemp, pageRecords, hnil]
        · simp [pageContinues, hr, hnil]
      · by_cases hshort : records.length < 42
        · refine ⟨page, le_refl _, h50, ?_, by omega, Or.inr ?_⟩
          · rw [hone, List.range'_one]
            simp [hr, hemp, hshort, pageRecords]
          · simp [pageContinues, hr]
            intro hne
            omega
        · by_cases hceil : 50 < page + 1
          · have hp50 : page = 50 := by omega
            refine ⟨page, le_refl _, h50, ?_, by omega, Or.inl hp50⟩
            rw [hone, List.range'_one]
            simp [hr, hemp, hshort, hceil, pageRecords]
          · obtain ⟨n, hn1, hn2, heq, hcont, hlast⟩ :=
              ih (page + 1) (by omega) (by omega) (by omega)
            refine ⟨n, by omega, hn2, ?_, ?_, hlast⟩
            · have hsplit : n + 1 - page = (n + 1 - (page + 1)) + 1 := by omega
              rw [hsplit, List.range'_succ]
              simp only [List.flatMap_cons]
              rw [← heq]
              simp [hr, hemp, hshort, hceil, pageRecords]
            · intro p hp1 hp2
              rcases Nat.eq_or_lt_of_le hp1 with heqp | hltp
              · subst heqp
                exact ⟨records, hr, fun hn => hemp (hn ▸ rfl), by omega⟩
              · exact hcont p (by omega) hp2

/-- C6: for every sequence of upstream page responses and every parser,
the link-listing pagination loop terminates after some final page
`n ≤ 50` (the hard ceiling); its result is exactly the concatenation of
the per-page parses of pages 1..n, with records whose parse fails
skipped; every page strictly before `n` was a non-empty success page of
at least the 42-record per-page cap; and the loop stopped at `n` either
because `n` is the 50-page ceiling or because page `n` itself was an
error page, empty, or shorter than 42 records.  (Totality of `pagesLoop`
— compiled by the decreasing measure `51 - page` — is the termination
part of the claim.) -/
theorem c6_pagination_terminates :
    ∀ {α β : Type} (resp : Nat → PageResp α) (parse : α → Option β),
      ∃ n, 1 ≤ n ∧ n ≤ 50 ∧
        pagesLoop resp parse 1 =
          (List.range' 1 n).flatMap (fun p => (pageRecords (resp p)).filterMap parse) ∧
        (∀ p, 1 ≤ p → p < n → pageContinues (resp p)) ∧
        (n = 50 ∨ ¬ pageContinues (resp n)) := by
  intro α β resp parse
  obtain ⟨n, hn1, hn2, heq, hcont, hlast⟩ :=
    pagesLoop_spec resp parse 50 1 (by omega) (by omega) (by omega)
  refine ⟨n, hn1, hn2, ?_, hcont, hlast⟩
  have h : n + 1 - 1 = n := by omega
  rw [heq, h]

/-- A full first page for the C6 witness. -/
def demoPage1 : List Nat := List.replicate 42 7

/-- A two-page upstream: a full page 1, a short page 2. -/
def demoResp : Nat → PageResp Nat := fun n =>
  if n = 1 then PageResp.ok demoPage1
  else if n = 2 then PageResp.ok [1, 2] else PageResp.httpError

/-- C6 witness: the pagination theorem instantiated at a concrete
two-page upstream, together with the loop's concrete value there (both
pages accumulated, stopping on the short second page). -/
theorem c6_pagination_witness :
    (∃ n, 1 ≤ n ∧ n ≤ 50 ∧
      pagesLoop demoResp some 1 =
        (List.range' 1 n).flatMap (fun p => (pageRecords (demoResp p)).filterMap some) ∧
      (∀ p, 1 ≤ p → p < n → pageContinues (demoResp p)) ∧
      (n = 50 ∨ ¬ pageContinues (demoResp n))) ∧
    pagesLoop demoResp some 1 = demoPage1 ++ [1, 2] := by
  refine ⟨c6_pagination_terminates demoResp some, ?_⟩
  rw [pagesLoop]
  norm_num [demoResp, demoPage1]
  rw [pagesLoop]
  norm_num [demoResp]

/-- C7: with no credential material configured (an empty remember-cookie
name or value) and no cached session, authentication returns false, and
every dependent catalog operation returns its empty/failure value for
every network oracle: search and link listing return the empty list,
link verification returns (false, none), and download-URL resolution
returns none. -/
theorem c7_fails_closed :
    ∀ (cookie_name cookie_value : String) (auth_resp : Option AuthResp),
      (cookie_name = "" ∨ cookie_value = "") →
      ensure_authenticated false cookie_name cookie_value auth_resp = false ∧
      (∀ (resp : Option (Nat × List SearchItem)) (mt : Option MediaType),
        search false cookie_name cookie_value auth_resp resp mt = []) ∧
      (∀ {α β : Type} (resp : Nat → PageResp α) (parse : α → Option β),
        get_title_links false cookie_name cookie_value auth_resp resp parse = []) ∧
      (∀ (resp : Option (Nat × LienObj)),
        verify_link_availability false cookie_name cookie_value auth_resp resp =
          (false, none)) ∧
      (∀ (resp : Option (Nat × LienObj)),
        get_download_url false cookie_name cookie_value auth_resp resp = none) := by
  intro nm vl ar h
  have hauth : ensure_authenticated false nm vl ar = false := by
    rcases h with h | h <;> simp [ensure_authenticated, h]
  refine ⟨hauth, ?_, ?_, ?_, ?_⟩
  · intro resp mt
    simp [search, hauth]
  · intro α β resp parse
    simp [get_title_links, hauth]
  · intro resp
    simp [verify_link_availability, hauth]
  · intro resp
    simp [get_download_url, hauth]

/-- A healthy-looking auth response, irrelevant once the cookie name is
missing. -/
def noCredAuth : Option AuthResp := some ⟨200, [("darkiworld_session", "sess")]⟩

/-- A live link object for the C7 witness. -/
def demoLien : LienObj := { deleted_at := none, active := 1, directDL := some "u", lien := none }

/-- C7 witness: the fails-closed theorem applied with an empty cookie
name against concrete, otherwise-successful network responses. -/
theorem c7_fails_closed_witness :
    ensure_authenticated false "" "secret" noCredAuth = false ∧
    search false "" "secret" noCredAuth
      (some (200, [⟨1, "T", "movie", some 2024, 1⟩])) (some MediaType.movie) = [] ∧
    get_title_links false "" "secret" noCredAuth demoResp some = ([] : List Nat) ∧
    verify_link_availability false "" "secret" noCredAuth (some (200, demoLien)) =
      (false, none) ∧
    get_download_url false "" "secret" noCredAuth (some (200, demoLien)) = none := by
  obtain ⟨h1, h2, h3, h4, h5⟩ := c7_fails_closed "" "secret" noCredAuth (Or.inl rfl)
  exact ⟨h1, h2 _ _, h3 _ _, h4 _, h5 _⟩

/- ===================== Link diversification (C2) ===================== -/

/-- A discovered link, restricted to the fields the diversification pass
of `get_title_links_verified` reads. -/
structure DLink where
  id : Nat
  episode : Option Nat
  quality : String
  host : String
deriving DecidableEq, Repr

/-- The episode bucket of a link: an absent episode is normalized to 0
(the season-pack bucket), as the grouping loop does. -/
def epKey (l : DLink) : Nat := l.episode.getD 0

/-- `quality_score` of `get_title_links_verified` (darkiworld.py lines
489-507): lower is better — full UHD, then other 2160p-class, then
remux, then bluray-1080p, then generic 1080p, then 720p, then the rest. -/
def quality_score (q : String) : Nat :=
  let qU := pyUpper q
  if pyIn "ULTRA HD" qU && !pyIn "LIGHT" qU then 0
  else if pyIn "ULTRA" qU || pyIn "UHD" qU || pyIn "2160" qU || pyIn "4K" qU then 1
  else if pyIn "REMUX" qU then 2
  else if pyIn "BLURAY" qU && pyIn "1080" qU then 3
  else if pyIn "1080" qU then 4
  else if pyIn "720" qU then 5
  else 6

/-- The host component of the sort key (darkiworld.py lines 514-515):
1fichier first, then send, then everybody else. -/
def host_rank (h : String) : Nat :=
  let hL := pyLower h
  if pyIn "1fichier" hL then 0
  else if pyIn "send" hL then 1
  else 2

/-- The sort key the per-episode `sorted(...)` call uses: quality score
first, then host rank. -/
def linkKey (l : DLink) : Nat × Nat := (quality_score l.quality, host_rank l.host)

/-- Strict lexicographic order on sort keys, as Python compares the key
tuples. -/
def keyLt (a b : Nat × Nat) : Bool :=
  decide (a.1 < b.1 ∨ (a.1 = b.1 ∧ a.2 < b.2))

/-- The head of Python's stable `sorted(group, key=linkKey)`: the first
element of the group attaining the minimal key.  (A stable sort moves no
element in front of an equal-keyed earlier one, so the sorted head is
exactly the earliest minimum; `pickBest` computes it directly, keeping
the current candidate on ties.) -/
def pickBest : List DLink → Option DLink
  | [] => none
  | l :: ls =>
    match pickBest ls with
    | none => some l
    | some b => if keyLt (linkKey b) (linkKey l) then some b else some l

/-- The episode-`e` bucket of `links_by_episode`, in discovery order. -/
def epGroup (links : List DLink) (e : Nat) : List DLink :=
  links.filter (fun l => epKey l == e)

/-- Largest episode bucket in use (bound for enumerating the keys). -/
def maxEp (links : List DLink) : Nat :=
  links.foldr (fun l m => max (epKey l) m) 0

/-- `sorted(links_by_episode.keys())`: the distinct episode buckets in
ascending order. -/
def episodesSorted (links : List DLink) : List Nat :=
  (List.range (maxEp links + 1)).filter (fun e => links.any (fun l => epKey l == e))

/-- One representative per episode bucket, ascending by episode
(darkiworld.py lines 509-518). -/
def representatives (links : List DLink) : List DLink :=
  (episodesSorted links).filterMap (fun e => pickBest (epGroup links e))

/-- The diversified order of `get_title_links_verified` (darkiworld.py
lines 469-524): the per-episode representatives first, then every other
link in discovery order whose id is not already represented. -/
def diversify (links : List DLink) : List DLink :=
  representatives links ++
    links.filter (fun l => !((representatives links).any (fun r => r.id == l.id)))

lemma keyLt_irrefl (a : Nat × Nat) : keyLt a a = false := by
  simp [keyLt]

lemma keyLt_asymm {a b : Nat × Nat} (h : keyLt a b = true) : keyLt b a = false := by
  simp [keyLt] at h ⊢
  omega

lemma keyLt_neg_trans {a b c : Nat × Nat} (h1 : keyLt a b = false)
    (h2 : keyLt b c = false) : keyLt a c = false := by
  simp [keyLt] at h1 h2 ⊢
  omega

lemma pickBest_mem : ∀ (ls : List DLink) (b : DLink), pickBest ls = some b → b ∈ ls := by
  intro ls
  induction ls with
  | nil => intro b h; simp [pickBest] at h
  | cons l t ih =>
    intro b h
    simp only [pickBest] at h
    cases ht : pickBest t with
    | none =>
      simp only [ht] at h
      injection h with h
      exact h ▸ List.mem_cons_self l t
    | some c =>
      simp only [ht] at h
      by_cases hk : keyLt (linkKey c) (linkKey l) = true
      · rw [if_pos hk] at h
        injection h with h
        exact h ▸ List.mem_cons_of_mem l (ih c ht)
      · rw [if_neg hk] at h
        injection h with h
        exact h ▸ List.mem_cons_self l t

lemma pickBest_eq_none : ∀ (ls : List DLink), pickBest ls = none → ls = [] := by
  intro ls h
  cases ls with
  | nil => rfl
  | cons l t =>
    exfalso
    simp only [pickBest] at h
    cases ht : pickBest t with
    | none => simp only [ht] at h; simp at h
    | some c =>
      simp only [ht] at h
      by_cases hk : keyLt (linkKey c) (linkKey l) = true <;> simp [hk] at h

/-- The per-episode representative attains the minimal key of its group:
no group member's key is strictly below it. -/
lemma pickBest_min : ∀ (ls : List DLink) (b : DLink), pickBest ls = some b →
    ∀ l ∈ ls, keyLt (linkKey l) (linkKey b) = false := by
  intro ls
  induction ls with
  | nil => intro b h; simp [pickBest] at h
  | cons l t ih =>
    intro b h x hx
    simp only [pickBest] at h
    cases ht : pickBest t with
    | none =>
      simp only [ht] at h
      injection h with h
      have htnil : t = [] := pickBest_eq_none t ht
      subst htnil
      rcases List.mem_cons.mp hx with rfl | hx2
      · exact h ▸ keyLt_irrefl _
      · simp at hx2
    | some c =>
      simp only [ht] at h
      by_cases hk : keyLt (linkKey c) (linkKey l) = true
      · rw [if_pos hk] at h
        injection h with h
        subst h
        rcases List.mem_cons.mp hx with rfl | hx2
        · exact keyLt_asymm hk
        · exact ih c ht x hx2
      · rw [if_neg hk] at h
        injection h with h
        subst h
        rcases List.mem_cons.mp hx with rfl | hx2
        · exact keyLt_irrefl _
        · have hxc := ih c ht x hx2
          have hcl : keyLt (linkKey c) (linkKey l) = false := by
            simpa using hk
          exact keyLt_neg_trans hxc hcl

lemma epKey_le_maxEp : ∀ {links : List DLink} {l : DLink}, l ∈ links →
    epKey l ≤ maxEp links := by
  intro links
  induction links with
  | nil => intro l h; simp at h
  | cons a t ih =>
    intro l hl
    rcases List.mem_cons.mp hl with rfl | h
    · exact le_max_left _ _
    · exact le_trans (ih h) (le_max_right _ _)

lemma epGroup_mem (links : List DLink) (e : Nat) (l : DLink) :
    l ∈ epGroup links e ↔ l ∈ links ∧ epKey l = e := by
  simp [epGroup]

/-- The sorted episode list holds exactly the episode buckets in use. -/
lemma mem_episodesSorted (links : List DLink) (e : Nat) :
    e ∈ episodesSorted links ↔ ∃ l, l ∈ links ∧ epKey l = e := by
  simp only [episodesSorted, List.mem_filter, List.mem_range, List.any_eq_true,
    beq_iff_eq]
  constructor
  · rintro ⟨-, l, hl, he⟩
    exact ⟨l, hl, he⟩
  · rintro ⟨l, hl, he⟩
    have := epKey_le_maxEp hl
    exact ⟨by omega, l, hl, he⟩

lemma pickBest_some_of_ne_nil (ls : List DLink) (h : ls ≠ []) :
    ∃ b, pickBest ls = some b := by
  cases hp : pickBest ls with
  | none => exact absurd (pickBest_eq_none ls hp) h
  | some b => exact ⟨b, rfl⟩

/-- Over any sublist of the in-use episode keys, the representative
selection yields exactly one link per key, at that key. -/
lemma reps_map_epKey (links : List DLink) :
    ∀ (L : List Nat), (∀ e ∈ L, e ∈ episodesSorted links) →
      ((L.filterMap (fun e => pickBest (epGroup links e))).map epKey = L ∧
       (L.filterMap (fun e => pickBest (epGroup links e))).length = L.length) := by
  intro L
  induction L with
  | nil => intro _; simp
  | cons e t ih =>
    intro h
    have he : e ∈ episodesSorted links := h e (List.mem_cons_self e t)
    have hne : epGroup links e ≠ [] := by
      rcases (mem_episodesSorted links e).mp he with ⟨l, hl, hkey⟩
      intro hnil
      have hmem : l ∈ epGroup links e := (epGroup_mem links e l).mpr ⟨hl, hkey⟩
      rw [hnil] at hmem
      simp at hmem
    obtain ⟨b, hb⟩ := pickBest_some_of_ne_nil _ hne
    have hbe : epKey b = e := ((epGroup_mem links e b).mp (pickBest_mem _ b hb)).2
    obtain ⟨ih1, ih2⟩ := ih (fun x hx => h x (List.mem_cons_of_mem e hx))
    simp [List.filterMap_cons, hb, ih1, ih2, hbe]

/-- C2: for every discovered link list, with E the number of distinct
episode buckets (absent/zero episode = season-pack bucket): the first E
elements of the diversified order are the representatives — one link per
distinct episode, in strictly ascending episode order — each a member of
its episode group attaining the minimal (quality score, host rank) key;
and the elements after the first E are exactly the original links, in
discovery order, whose id is not among the representatives. -/
theorem c2_diversification (links : List DLink) :
    (representatives links).length = (episodesSorted links).length ∧
    (diversify links).take (episodesSorted links).length = representatives links ∧
    (diversify links).drop (episodesSorted links).length =
      links.filter (fun l => !((representatives links).any (fun r => r.id == l.id))) ∧
    (representatives links).map epKey = episodesSorted links ∧
    List.Pairwise (· < ·) (episodesSorted links) ∧
    (∀ e, e ∈ episodesSorted links ↔ ∃ l, l ∈ links ∧ epKey l = e) ∧
    (∀ r ∈ representatives links, r ∈ links ∧
      ∀ l ∈ links, epKey l = epKey r → keyLt (linkKey l) (linkKey r) = false) := by
  obtain ⟨hmap, hlen⟩ :=
    reps_map_epKey links (episodesSorted links) (fun e he => he)
  have hmap2 : (representatives links).map epKey = episodesSorted links := hmap
  have hlen2 : (representatives links).length = (episodesSorted links).length := hlen
  refine ⟨hlen2, ?_, ?_, hmap2, ?_, mem_episodesSorted links, ?_⟩
  · rw [diversify, ← hlen2, List.take_left]
  · rw [diversify, ← hlen2, List.drop_left]
  · exact (List.pairwise_lt_range _).filter _
  · intro r hr
    rw [representatives, List.mem_filterMap] at hr
    obtain ⟨e, he, hpick⟩ := hr
    have hmem := pickBest_mem _ r hpick
    have hre := (epGroup_mem links e r).mp hmem
    refine ⟨hre.1, ?_⟩
    intro l hl hkey
    have hlg : l ∈ epGroup links e := (epGroup_mem links e l).mpr ⟨hl, by rw [hkey, hre.2]⟩
    exact pickBest_min _ r hpick l hlg

/-- Episode-1 mirror on an unranked host, WEB quality. -/
def wLink1 : DLink := { id := 1, episode := some 1, quality := "WEB 1080p", host := "Uptobox" }

/-- Episode-1 mirror in full UHD on the second premium host. -/
def wLink2 : DLink := { id := 2, episode := some 1, quality := "ULTRA HD (x265)", host := "Send.cm" }

/-- The only episode-2 mirror, on the first premium host. -/
def wLink3 : DLink := { id := 3, episode := some 2, quality := "720p", host := "1fichier" }

/-- A season pack (absent episode) in remux quality. -/
def wLink4 : DLink := { id := 4, episode := none, quality := "REMUX BLURAY", host := "Darkibox" }

/-- The link pool of the C2 witness. -/
def wLinks : List DLink := [wLink1, wLink2, wLink3, wLink4]

/-- C2 witness: the diversification theorem instantiated at the concrete
four-link pool, together with the concrete diversified order there: the
season pack, the best episode-1 mirror and the episode-2 mirror first,
the leftover episode-1 mirror last. -/
theorem c2_diversification_witness :
    ((representatives wLinks).length = (episodesSorted wLinks).length ∧
     (diversify wLinks).take (episodesSorted wLinks).length = representatives wLinks ∧
     (diversify wLinks).drop (episodesSorted wLinks).length =
       wLinks.filter (fun l => !((representatives wLinks).any (fun r => r.id == l.id))) ∧
     (representatives wLinks).map epKey = episodesSorted wLinks ∧
     List.Pairwise (· < ·) (episodesSorted wLinks) ∧
     (∀ e, e ∈ episodesSorted wLinks ↔ ∃ l, l ∈ wLinks ∧ epKey l = e) ∧
     (∀ r ∈ representatives wLinks, r ∈ wLinks ∧
       ∀ l ∈ wLinks, epKey l = epKey r → keyLt (linkKey l) (linkKey r) = false)) ∧
    diversify wLinks = [wLink4, wLink2, wLink3, wLink1] ∧
    episodesSorted wLinks = [0, 1, 2] := by
  exact ⟨c2_diversification wLinks, by decide, by decide⟩

end DDL


